import Mathlib

/-!
Verification of the quoting-and-position engine of the Binance testnet
market-making bot (`src/scripts/binance_testnet_bot.py`).

The engine is embedded shallowly over ℚ: every numeric value the Python
code manipulates (quantities, prices, PnL) is modelled as a rational
number, and the mutating methods of the Python classes become pure
state-passing functions.  Each definition mirrors the corresponding
Python code line by line.
-/

namespace HftBot

/-- Embeds `StrategyConfig` (binance_testnet_bot.py, lines 48-58).
Field defaults mirror the Python dataclass defaults. -/
structure StrategyConfig where
  symbol : String := "BTCUSDT"
  spread_bps : Int := 10
  quote_size : ℚ := 1/1000
  max_position : ℚ := 1/100
  skew_factor : ℚ := 1/2
  update_interval : ℚ := 5
  price_decimals : Nat := 2
  qty_decimals : Nat := 5
deriving DecidableEq

/-- The configuration built in `main()` (lines 318-324): explicit symbol,
spread_bps, quote_size, max_position and update_interval; skew_factor is
left at its dataclass default 0.5. -/
def mainConfig : StrategyConfig :=
  { symbol := "BTCUSDT"
    spread_bps := 10
    quote_size := 1/1000
    max_position := 1/100
    skew_factor := 1/2
    update_interval := 10 }

/-- A syntactically well-formed `StrategyConfig` with a negative quote
size.  Nothing in the dataclass or in `calculate_quotes` restricts the
sign of any field, so this is a legal input to the quoting function. -/
def negQuoteSizeConfig : StrategyConfig :=
  { symbol := "BTCUSDT"
    spread_bps := 10
    quote_size := -1
    max_position := 1
    skew_factor := 1/2 }

/-- Embeds the `Position` dataclass (lines 61-67): signed quantity,
average entry price of the open side, cumulative realized PnL, and the
fill counter.  Defaults are the dataclass defaults (a flat position). -/
structure Position where
  quantity : ℚ := 0
  avg_price : ℚ := 0
  realized_pnl : ℚ := 0
  total_trades : Nat := 0
deriving DecidableEq

/-- Embeds `Position.on_fill` (lines 69-98).  The Python method mutates
`self`; here the updated position is returned.  Branch structure is kept
exactly: `side == "BUY"` selects the buy logic and every other string
falls into the `else` (SELL) branch, as in the source. -/
def Position.on_fill (p : Position) (side : String) (qty price : ℚ) : Position :=
  let p1 : Position := { p with total_trades := p.total_trades + 1 }
  if side = "BUY" then
    if p1.quantity ≥ 0 then
      -- Adding to long
      let total_cost := p1.quantity * p1.avg_price + qty * price
      let q2 := p1.quantity + qty
      { p1 with quantity := q2
                avg_price := if q2 > 0 then total_cost / q2 else 0 }
    else
      -- Covering short
      let cover := min qty (-p1.quantity)
      let q2 := p1.quantity + qty
      { p1 with realized_pnl := p1.realized_pnl + cover * (p1.avg_price - price)
                quantity := q2
                avg_price := if q2 > 0 then price else p1.avg_price }
  else  -- SELL
    if p1.quantity ≤ 0 then
      -- Adding to short
      let total_cost := |p1.quantity| * p1.avg_price + qty * price
      let q2 := p1.quantity - qty
      { p1 with quantity := q2
                avg_price := if q2 ≠ 0 then total_cost / |q2| else 0 }
    else
      -- Closing long
      let close := min qty p1.quantity
      let q2 := p1.quantity - qty
      { p1 with realized_pnl := p1.realized_pnl + close * (price - p1.avg_price)
                quantity := q2
                avg_price := if q2 < 0 then price else p1.avg_price }

/-- Embeds `Position.unrealized_pnl` (lines 100-104). -/
def Position.unrealized_pnl (p : Position) (current_price : ℚ) : ℚ :=
  if p.quantity = 0 then 0
  else p.quantity * (current_price - p.avg_price)

/-- Embeds `Position.total_pnl` (lines 106-107). -/
def Position.total_pnl (p : Position) (current_price : ℚ) : ℚ :=
  p.realized_pnl + p.unrealized_pnl current_price

/-- The quadruple returned by `MarketMaker.calculate_quotes`
(line 139): `(bid_price, ask_price, bid_size, ask_size)`. -/
structure Quote where
  bid_price : ℚ
  ask_price : ℚ
  bid_size : ℚ
  ask_size : ℚ
deriving DecidableEq

/-- Embeds `MarketMaker.calculate_quotes` (lines 116-139).  The Python
body performs no input validation and has no exception path: it is a
total arithmetic function of `mid_price` and `position`.  The guard
`if self.config.max_position > 0 else 0` on the position ratio is kept. -/
def calculate_quotes (cfg : StrategyConfig) (mid_price pos : ℚ) : Quote :=
  let half_spread := mid_price * ((cfg.spread_bps : ℚ) / 2) / 10000
  let pr := if cfg.max_position > 0 then pos / cfg.max_position else 0
  let skew := half_spread * pr * cfg.skew_factor
  let bid_price := mid_price - half_spread - skew
  let ask_price := mid_price + half_spread - skew
  let room_to_buy := cfg.max_position - pos
  let room_to_sell := cfg.max_position + pos
  { bid_price := bid_price
    ask_price := ask_price
    bid_size := min cfg.quote_size (max 0 room_to_buy)
    ask_size := min cfg.quote_size (max 0 room_to_sell) }

/-- Outcome of the exchange `cancel_all_open_orders` call as observed by
`BinanceTestnetBot.cancel_all_orders` (lines 195-204): either the call
returns normally, or it raises a `BinanceAPIException` carrying an error
code (code -2011 is the "unknown order / nothing to cancel" case). -/
inductive CancelOutcome where
  | success
  | apiError (code : Int)
deriving DecidableEq

/-- The order-identifier state of `BinanceTestnetBot` (lines 151-153):
at most one tracked bid order id and one tracked ask order id. -/
structure OrderIds where
  bid_order_id : Option Int
  ask_order_id : Option Int
deriving DecidableEq

/-- Embeds `BinanceTestnetBot.cancel_all_orders` (lines 195-204) as a
function of the prior id state and the outcome of the exchange call.
In the source, the two assignments `self.bid_order_id = None` and
`self.ask_order_id = None` sit inside the `try` block after the cancel
call, so they run only when the call returns normally; when the call
raises, the `except` handler only logs (and suppresses the log for code
-2011) and both ids are left untouched. -/
def cancel_all_orders (s : OrderIds) (r : CancelOutcome) : OrderIds :=
  match r with
  | .success => { bid_order_id := none, ask_order_id := none }
  | .apiError _ => s

/-! ## Helper lemmas shared by several claims -/

/-- In every branch of `on_fill`, the quantity moves by exactly the fill
quantity: `+qty` in the BUY branch, `-qty` in the SELL branch. -/
lemma on_fill_quantity (p : Position) (side : String) (qty price : ℚ) :
    (p.on_fill side qty price).quantity =
      if side = "BUY" then p.quantity + qty else p.quantity - qty := by
  unfold Position.on_fill
  by_cases h : side = "BUY" <;> simp [h] <;> split <;> rfl

/-- `on_fill` leaves `realized_pnl` unchanged in the same-sign branches
(BUY with quantity ≥ 0, SELL with quantity ≤ 0). -/
lemma on_fill_realized_same_sign (p : Position) (side : String) (qty price : ℚ)
    (h : (side = "BUY" ∧ 0 ≤ p.quantity) ∨ (side ≠ "BUY" ∧ p.quantity ≤ 0)) :
    (p.on_fill side qty price).realized_pnl = p.realized_pnl := by
  unfold Position.on_fill
  rcases h with ⟨hb, hq⟩ | ⟨hb, hq⟩ <;> simp [hb, hq]

/-- A BUY fill that takes the quantity from strictly negative to
strictly positive sets the average price to the fill price (line 85). -/
lemma on_fill_avg_buy_flip (p : Position) (qty price : ℚ)
    (hneg : p.quantity < 0) (hpos : 0 < p.quantity + qty) :
    (p.on_fill "BUY" qty price).avg_price = price := by
  unfold Position.on_fill
  simp [hneg.not_le, hpos]

/-- A SELL fill that takes the quantity from strictly positive to
strictly negative sets the average price to the fill price (line 98). -/
lemma on_fill_avg_sell_flip (p : Position) (qty price : ℚ)
    (hpos : 0 < p.quantity) (hneg : p.quantity - qty < 0) :
    (p.on_fill "SELL" qty price).avg_price = price := by
  unfold Position.on_fill
  simp [hpos.not_le, hneg]

/-- Unfolded bid/ask price formulas of `calculate_quotes` when the
configured maximum position is strictly positive. -/
lemma calculate_quotes_prices (cfg : StrategyConfig) (mid pos : ℚ)
    (hmp : 0 < cfg.max_position) :
    (calculate_quotes cfg mid pos).bid_price =
      mid - mid * ((cfg.spread_bps : ℚ) / 2) / 10000 -
        mid * ((cfg.spread_bps : ℚ) / 2) / 10000 * (pos / cfg.max_position) * cfg.skew_factor ∧
    (calculate_quotes cfg mid pos).ask_price =
      mid + mid * ((cfg.spread_bps : ℚ) / 2) / 10000 -
        mid * ((cfg.spread_bps : ℚ) / 2) / 10000 * (pos / cfg.max_position) * cfg.skew_factor := by
  simp [calculate_quotes, if_pos hmp]

/-! ## Claims -/

/-- C1: for every fill with quantity > 0, price > 0 and side in
{BUY, SELL}, applied to any position state, the quantity after `on_fill`
is the quantity before plus the fill quantity for BUY and minus the fill
quantity for SELL. -/
theorem C1_on_fill_quantity_delta (p : Position) (side : String) (qty price : ℚ)
    (hq : 0 < qty) (hp : 0 < price) (hside : side = "BUY" ∨ side = "SELL") :
    (p.on_fill side qty price).quantity =
      if side = "BUY" then p.quantity + qty else p.quantity - qty :=
  on_fill_quantity p side qty price

/-- Witness for C1 at a concrete input: a BUY fill of 1 @ 100 on the
flat initial position raises the quantity from 0 to 1. -/
theorem C1_on_fill_quantity_delta_witness :
    (Position.on_fill {} "BUY" 1 100).quantity =
      if "BUY" = "BUY" then (0 : ℚ) + 1 else (0 : ℚ) - 1 :=
  C1_on_fill_quantity_delta {} "BUY" 1 100 (by norm_num) (by norm_num) (Or.inl rfl)

/-- C2: for every fill with quantity > 0 and price > 0 and a valid side,
whenever `on_fill` makes the quantity cross zero (strictly negative
before and strictly positive after, or the reverse), the average entry
price after the call is the triggering fill price; and in the concrete
instance, flat then (BUY, 1, 100) then (SELL, 2, 90) gives realized
PnL −10, quantity −1 and average price 90. -/
theorem C2_flip_resets_avg_price (p : Position) (side : String) (qty price : ℚ)
    (hq : 0 < qty) (hp : 0 < price) (hside : side = "BUY" ∨ side = "SELL")
    (hcross : (p.quantity < 0 ∧ 0 < (p.on_fill side qty price).quantity) ∨
              (0 < p.quantity ∧ (p.on_fill side qty price).quantity < 0)) :
    (p.on_fill side qty price).avg_price = price ∧
    (((({} : Position).on_fill "BUY" 1 100).on_fill "SELL" 2 90).realized_pnl = -10 ∧
     ((({} : Position).on_fill "BUY" 1 100).on_fill "SELL" 2 90).quantity = -1 ∧
     ((({} : Position).on_fill "BUY" 1 100).on_fill "SELL" 2 90).avg_price = 90) := by
  constructor
  · rcases hside with hb | hs
    · subst hb
      have hquant := on_fill_quantity p "BUY" qty price
      rw [if_pos rfl] at hquant
      rcases hcross with ⟨hneg, hpos⟩ | ⟨hpos, hneg⟩
      · exact on_fill_avg_buy_flip p qty price hneg (hquant ▸ hpos)
      · rw [hquant] at hneg
        linarith
    · subst hs
      have hquant := on_fill_quantity p "SELL" qty price
      rw [if_neg (by simp)] at hquant
      rcases hcross with ⟨hneg, hpos⟩ | ⟨hpos, hneg⟩
      · rw [hquant] at hpos
        linarith
      · exact on_fill_avg_sell_flip p qty price hpos (hquant ▸ hneg)
  · have hsb : ("SELL" : String) = "BUY" ↔ False := by simp
    have h : ((({} : Position).on_fill "BUY" 1 100).on_fill "SELL" 2 90) =
        { quantity := -1, avg_price := 90, realized_pnl := -10, total_trades := 2 } := by
      norm_num [Position.on_fill, min_def, hsb]
    rw [h]
    norm_num

/-- Witness for C2 at a concrete input: SELL 2 @ 90 against a long
position of 1 @ 100 flips the sign and resets the average price to 90. -/
theorem C2_flip_resets_avg_price_witness :
    ((Position.mk 1 100 0 1).on_fill "SELL" 2 90).avg_price = 90 ∧
    (((({} : Position).on_fill "BUY" 1 100).on_fill "SELL" 2 90).realized_pnl = -10 ∧
     ((({} : Position).on_fill "BUY" 1 100).on_fill "SELL" 2 90).quantity = -1 ∧
     ((({} : Position).on_fill "BUY" 1 100).on_fill "SELL" 2 90).avg_price = 90) := by
  have hsb : ("SELL" : String) = "BUY" ↔ False := by simp
  have hquant : ((Position.mk 1 100 0 1).on_fill "SELL" 2 90).quantity = -1 := by
    norm_num [Position.on_fill, hsb]
  exact C2_flip_resets_avg_price (Position.mk 1 100 0 1) "SELL" 2 90
    (by norm_num) (by norm_num) (Or.inr rfl)
    (Or.inr ⟨by norm_num, by rw [hquant] ; norm_num⟩)

/-- C5: from the flat initial position, `on_fill BUY 1 100` followed by
`on_fill SELL 1 110` yields quantity 0 and realized PnL 10, and the
unrealized PnL of the resulting state is 0 at every current price. -/
theorem C5_round_trip :
    ((({} : Position).on_fill "BUY" 1 100).on_fill "SELL" 1 110).quantity = 0 ∧
    ((({} : Position).on_fill "BUY" 1 100).on_fill "SELL" 1 110).realized_pnl = 10 ∧
    ∀ c : ℚ, ((({} : Position).on_fill "BUY" 1 100).on_fill "SELL" 1 110).unrealized_pnl c = 0 := by
  have hs : ("SELL" : String) = "BUY" ↔ False := by simp
  have h : ((({} : Position).on_fill "BUY" 1 100).on_fill "SELL" 1 110) =
      { quantity := 0, avg_price := 100, realized_pnl := 10, total_trades := 2 } := by
    norm_num [Position.on_fill, min_def, hs]
  refine ⟨by rw [h], by rw [h], fun c => ?_⟩
  rw [h]
  simp [Position.unrealized_pnl]

/-- C6: for every fill with quantity > 0, price > 0 and a valid side, a
change of realized PnL by `on_fill` happens only when the fill reduces
an existing position of the opposite sign (BUY against a strictly
negative quantity or SELL against a strictly positive one); in every
other case the realized PnL is unchanged. -/
theorem C6_realized_pnl_change (p : Position) (side : String) (qty price : ℚ)
    (hq : 0 < qty) (hp : 0 < price) (hside : side = "BUY" ∨ side = "SELL") :
    ((p.on_fill side qty price).realized_pnl ≠ p.realized_pnl →
      (side = "BUY" ∧ p.quantity < 0) ∨ (side = "SELL" ∧ 0 < p.quantity)) ∧
    (¬ ((side = "BUY" ∧ p.quantity < 0) ∨ (side = "SELL" ∧ 0 < p.quantity)) →
      (p.on_fill side qty price).realized_pnl = p.realized_pnl) := by
  have key : ¬ ((side = "BUY" ∧ p.quantity < 0) ∨ (side = "SELL" ∧ 0 < p.quantity)) →
      (p.on_fill side qty price).realized_pnl = p.realized_pnl := by
    intro hnot
    push_neg at hnot
    obtain ⟨h1, h2⟩ := hnot
    rcases hside with hb | hs
    · exact on_fill_realized_same_sign p side qty price (Or.inl ⟨hb, h1 hb⟩)
    · refine on_fill_realized_same_sign p side qty price (Or.inr ⟨?_, h2 hs⟩)
      rw [hs]
      simp
  exact ⟨fun hne => by_contra fun hnot => hne (key hnot), key⟩

/-- Witness for C6 at a concrete input: a BUY fill of 1 @ 100 on the
flat initial position is not an opposite-sign reduction, so it leaves
the realized PnL unchanged. -/
theorem C6_realized_pnl_change_witness :
    ((({} : Position).on_fill "BUY" 1 100).realized_pnl ≠ ({} : Position).realized_pnl →
      ("BUY" = "BUY" ∧ ({} : Position).quantity < 0) ∨
      ("BUY" = "SELL" ∧ 0 < ({} : Position).quantity)) ∧
    (¬ (("BUY" = "BUY" ∧ ({} : Position).quantity < 0) ∨
        ("BUY" = "SELL" ∧ 0 < ({} : Position).quantity)) →
      (({} : Position).on_fill "BUY" 1 100).realized_pnl = ({} : Position).realized_pnl) :=
  C6_realized_pnl_change {} "BUY" 1 100 (by norm_num) (by norm_num) (Or.inl rfl)

/-- C7: for every mid price > 0 and configuration with spread_bps > 0,
max_position > 0 and skew_factor > 0, the inventory skew moves both
quoted prices in the same direction relative to the zero-inventory
quote: strictly lower for a strictly positive inventory, strictly
higher for a strictly negative one. -/
theorem C7_skew_shifts_both_quotes (cfg : StrategyConfig) (mid pos : ℚ)
    (hm : 0 < mid) (hb : 0 < cfg.spread_bps) (hmp : 0 < cfg.max_position)
    (hsf : 0 < cfg.skew_factor) :
    (0 < pos →
      (calculate_quotes cfg mid pos).bid_price < (calculate_quotes cfg mid 0).bid_price ∧
      (calculate_quotes cfg mid pos).ask_price < (calculate_quotes cfg mid 0).ask_price) ∧
    (pos < 0 →
      (calculate_quotes cfg mid 0).bid_price < (calculate_quotes cfg mid pos).bid_price ∧
      (calculate_quotes cfg mid 0).ask_price < (calculate_quotes cfg mid pos).ask_price) := by
  have hbq : (0 : ℚ) < (cfg.spread_bps : ℚ) := by exact_mod_cast hb
  have hhs : 0 < mid * ((cfg.spread_bps : ℚ) / 2) / 10000 := by positivity
  obtain ⟨hbid, hask⟩ := calculate_quotes_prices cfg mid pos hmp
  obtain ⟨hbid0, hask0⟩ := calculate_quotes_prices cfg mid 0 hmp
  rw [hbid, hask, hbid0, hask0]
  constructor
  · intro hpos
    have hsk : 0 < mid * ((cfg.spread_bps : ℚ) / 2) / 10000 *
        (pos / cfg.max_position) * cfg.skew_factor := by positivity
    constructor <;> rw [zero_div] <;> nlinarith
  · intro hneg
    have hr : pos / cfg.max_position < 0 := div_neg_of_neg_of_pos hneg hmp
    have hsk : mid * ((cfg.spread_bps : ℚ) / 2) / 10000 *
        (pos / cfg.max_position) * cfg.skew_factor < 0 := by
      have := mul_neg_of_pos_of_neg hhs hr
      exact mul_neg_of_neg_of_pos this hsf
    constructor <;> rw [zero_div] <;> nlinarith

/-- Witness for C7 at a concrete input: with the `main()` configuration
at mid 50000, inventory 0.01 lowers both quotes and inventory −0.01
raises both, relative to the zero-inventory quote. -/
theorem C7_skew_shifts_both_quotes_witness :
    (0 < (1/100 : ℚ) →
      (calculate_quotes mainConfig 50000 (1/100)).bid_price <
        (calculate_quotes mainConfig 50000 0).bid_price ∧
      (calculate_quotes mainConfig 50000 (1/100)).ask_price <
        (calculate_quotes mainConfig 50000 0).ask_price) ∧
    ((1/100 : ℚ) < 0 →
      (calculate_quotes mainConfig 50000 0).bid_price <
        (calculate_quotes mainConfig 50000 (1/100)).bid_price ∧
      (calculate_quotes mainConfig 50000 0).ask_price <
        (calculate_quotes mainConfig 50000 (1/100)).ask_price) :=
  C7_skew_shifts_both_quotes mainConfig 50000 (1/100)
    (by norm_num) (by norm_num [mainConfig]) (by norm_num [mainConfig])
    (by norm_num [mainConfig])

/-- C9: with the `main()` configuration (spread 10 bps, quote size
0.001, max position 0.01, skew factor 0.5), `calculate_quotes` returns
(49975, 50025, 0.001, 0.001) at mid 50000 with zero inventory, and
(49962.5, 50012.5, 0, 0.001) at mid 50000 with inventory 0.01. -/
theorem C9_end_to_end_scenario :
    calculate_quotes mainConfig 50000 0 =
      { bid_price := 49975, ask_price := 50025, bid_size := 1/1000, ask_size := 1/1000 } ∧
    calculate_quotes mainConfig 50000 (1/100) =
      { bid_price := 99925/2, ask_price := 100025/2, bid_size := 0, ask_size := 1/1000 } := by
  constructor <;> norm_num [calculate_quotes, mainConfig, min_def, max_def, Quote.mk.injEq]

/-- C3 counterexample: when the exchange cancel call raises an API
error — here code -2011, the "no open orders" report the claim singles
out — `cancel_all_orders` leaves both tracked order identifiers set, so
they are not cleared "regardless of the outcome the cancel call
reports".  In the source the two clearing assignments are inside the
`try` block after the cancel call and are skipped when it raises. -/
theorem C3_counterexample :
    ¬ ((cancel_all_orders { bid_order_id := some 1, ask_order_id := some 2 }
          (CancelOutcome.apiError (-2011))).bid_order_id = none ∧
       (cancel_all_orders { bid_order_id := some 1, ask_order_id := some 2 }
          (CancelOutcome.apiError (-2011))).ask_order_id = none) := by
  simp [cancel_all_orders]

/-- C3 amended: after a cancel-all operation both tracked order
identifiers are cleared when the underlying exchange call returns
without raising; when the call raises an API error (any code, including
-2011 "no open orders") both identifiers are left unchanged. -/
theorem C3_cancel_all_clears_ids (s : OrderIds) :
    (cancel_all_orders s CancelOutcome.success).bid_order_id = none ∧
    (cancel_all_orders s CancelOutcome.success).ask_order_id = none ∧
    ∀ c : Int, cancel_all_orders s (CancelOutcome.apiError c) = s :=
  ⟨rfl, rfl, fun _ => rfl⟩

/-- C4 counterexample: `calculate_quotes` has no validation and no
error path; at mid price −1 ≤ 0 it returns an ordinary quadruple
(a degenerate quote with bid above ask) instead of signalling an
invalid-argument error. -/
theorem C4_counterexample :
    calculate_quotes mainConfig (-1) 0 =
      { bid_price := -1999/2000, ask_price := -2001/2000,
        bid_size := 1/1000, ask_size := 1/1000 } := by
  norm_num [calculate_quotes, mainConfig, min_def, max_def, Quote.mk.injEq]

/-- C4 amended: `calculate_quotes` never signals an error; it is a total
function that applies the same formulas to every mid price.  For
mid price ≤ 0 (with a nonnegative configured spread) the returned quote
is degenerate — its ask price is at or below its bid price — rather
than an error. -/
theorem C4_no_validation_degenerate_quote (cfg : StrategyConfig) (mid pos : ℚ)
    (hm : mid ≤ 0) (hb : 0 ≤ cfg.spread_bps) :
    (calculate_quotes cfg mid pos).ask_price ≤ (calculate_quotes cfg mid pos).bid_price := by
  have hbq : (0 : ℚ) ≤ (cfg.spread_bps : ℚ) := by exact_mod_cast hb
  have hhs : mid * ((cfg.spread_bps : ℚ) / 2) / 10000 ≤ 0 := by
    have : mid * ((cfg.spread_bps : ℚ) / 2) ≤ 0 :=
      mul_nonpos_of_nonpos_of_nonneg hm (by linarith)
    linarith
  simp only [calculate_quotes]
  linarith

/-- Witness for the C4 amended theorem at a concrete input: with the
`main()` configuration at mid price −1, the ask is at or below the
bid. -/
theorem C4_no_validation_degenerate_quote_witness :
    (-1 : ℚ) ≤ 0 ∧
    (calculate_quotes mainConfig (-1) 0).ask_price ≤
      (calculate_quotes mainConfig (-1) 0).bid_price :=
  ⟨by norm_num,
   C4_no_validation_degenerate_quote mainConfig (-1) 0 (by norm_num)
     (by norm_num [mainConfig])⟩

/-- C8 counterexample: with a configuration whose quote size is −1 and
maximum position 1, at inventory equal to the maximum position the bid
size is min(−1, 0) = −1, not 0, so the claim fails for this
configuration (the claim quantifies over every configuration). -/
theorem C8_counterexample :
    (calculate_quotes negQuoteSizeConfig 50000 negQuoteSizeConfig.max_position).bid_size ≠ 0 := by
  norm_num [calculate_quotes, negQuoteSizeConfig, min_def, max_def]

/-- C8 amended: for every mid price > 0 and every configuration with
nonnegative quote size and nonnegative maximum position, at inventory
equal to the maximum position the bid size is 0 and the ask size is
min(quote size, 2 × maximum position). -/
theorem C8_boundary_sizes (cfg : StrategyConfig) (mid : ℚ)
    (hm : 0 < mid) (hq : 0 ≤ cfg.quote_size) (hmp : 0 ≤ cfg.max_position) :
    (calculate_quotes cfg mid cfg.max_position).bid_size = 0 ∧
    (calculate_quotes cfg mid cfg.max_position).ask_size =
      min cfg.quote_size (2 * cfg.max_position) := by
  constructor
  · simp only [calculate_quotes, sub_self]
    rw [max_self, min_eq_right hq]
  · simp only [calculate_quotes]
    rw [max_eq_right (by linarith : (0 : ℚ) ≤ cfg.max_position + cfg.max_position)]
    rw [two_mul]

/-- Witness for the C8 amended theorem at a concrete input: the
`main()` configuration at mid 50000 with inventory at the maximum
position quotes bid size 0 and ask size min(0.001, 0.02) = 0.001. -/
theorem C8_boundary_sizes_witness :
    (calculate_quotes mainConfig 50000 mainConfig.max_position).bid_size = 0 ∧
    (calculate_quotes mainConfig 50000 mainConfig.max_position).ask_size =
      min mainConfig.quote_size (2 * mainConfig.max_position) :=
  C8_boundary_sizes mainConfig 50000 (by norm_num)
    (by norm_num [mainConfig]) (by norm_num [mainConfig])

/-- C10: `on_fill` inspects the side only through the test
`side == "BUY"`, so every side string other than "BUY" — valid or not —
executes the SELL logic; an invalid side is silently treated as SELL. -/
theorem C10_invalid_side_runs_sell (p : Position) (side : String) (qty price : ℚ)
    (h : side ≠ "BUY") :
    p.on_fill side qty price = p.on_fill "SELL" qty price := by
  unfold Position.on_fill
  simp [h]

/-- Witness for C10 at a concrete input: the invalid side "HOLD" acts
exactly like "SELL" on the flat initial position. -/
theorem C10_invalid_side_runs_sell_witness :
    (({} : Position).on_fill "HOLD" 1 100) = (({} : Position).on_fill "SELL" 1 100) :=
  C10_invalid_side_runs_sell {} "HOLD" 1 100 (by decide)

end HftBot
